import Mathlib

/-!
# Verification of the paperscraper ingestion pipeline

Shallow embedding of the paperscraper repository (scraper.py, pdf_reader.py,
summariser.py, storage.py, main.py) and proofs about it.

Modelling conventions:
* Python dicts are association lists `List (String × PyVal)`; assignment
  `d[k] = v` replaces the (first) binding of `k` in place, or appends the
  binding at the end, exactly as insertion-ordered Python dicts behave.
* External effects (HTTP download, the PDF library, the blob upload, the
  chat-completion call) are oracles passed in as explicit parameters: an
  `Except String _` value stands for "the call raised an exception with this
  message" versus "the call returned this value".
* JSON serialization is modelled as the identity on records
  (`json.loads (json.dumps d) = d` for the dicts this program stores).
* `datetime.now().strftime("%Y-%m-%d")` is modelled by a `today : String`
  parameter: all claims concern a single day's run.
-/

/-- Values stored in the Python dicts this pipeline manipulates.  The pipeline
only ever writes strings and lists of strings into the fields it touches; the
remaining constructors keep the universe from being artificially narrow. -/
inductive PyVal where
  | str (s : String)
  | strs (xs : List String)
  | num (n : Int)
  | boolV (b : Bool)
  | nullV
deriving DecidableEq, Repr

/-- A Python dict with string keys, in insertion order. -/
abbrev Record := List (String × PyVal)

/-- Python dict lookup `d[k]` / `d.get(k)`: first binding of `k`. -/
def dictGet {α : Type} : List (String × α) → String → Option α
  | [], _ => Option.none
  | (k₁, v) :: t, k => if k₁ = k then Option.some v else dictGet t k

/-- Python dict assignment `d[k] = v`: replace the binding of `k` if present
(keeping its position), otherwise append `(k, v)` at the end. -/
def dictSet {α : Type} : List (String × α) → String → α → List (String × α)
  | [], k, v => [(k, v)]
  | (k₁, v₁) :: t, k, v =>
      if k₁ = k then (k, v) :: t else (k₁, v₁) :: dictSet t k v

theorem dictGet_dictSet_self {α : Type} (l : List (String × α)) (k : String) (v : α) :
    dictGet (dictSet l k v) k = Option.some v := by
  induction l with
  | nil => simp [dictSet, dictGet]
  | cons h t ih =>
      obtain ⟨k₁, v₁⟩ := h
      by_cases hk : k₁ = k <;> simp [dictSet, dictGet, hk, ih]

theorem dictGet_dictSet_ne {α : Type} (l : List (String × α)) (k k₂ : String) (v : α)
    (hne : k₂ ≠ k) : dictGet (dictSet l k v) k₂ = dictGet l k₂ := by
  induction l with
  | nil => simp [dictSet, dictGet, Ne.symm hne]
  | cons h t ih =>
      obtain ⟨k₁, v₁⟩ := h
      by_cases hk : k₁ = k
      · subst hk
        simp [dictSet, dictGet, Ne.symm hne]
      · simp [dictSet, dictGet, hk, ih]

theorem dictGet_isSome_dictSet {α : Type} (l : List (String × α)) (k k₂ : String) (v : α)
    (h : (dictGet l k₂).isSome) : (dictGet (dictSet l k v) k₂).isSome := by
  by_cases hk : k₂ = k
  · subst hk; simp [dictGet_dictSet_self]
  · rwa [dictGet_dictSet_ne l k k₂ v hk]

/-! ## storage.py — `AzureBlobStorage`

The container client is abstracted to a readiness flag plus the map from blob
names to the stored records.  A blob-upload exception is abstracted by the
oracle `uploadFails`. -/

/-- State of `AzureBlobStorage`: whether `container_client` is non-`None`, and
the blobs held by the container. -/
structure AzureBlobStorage where
  container_ready : Bool
  blobs : List (String × Record)
deriving Repr

/-- The blob name `f"{date}/{arxiv_id}.json"` used by storage.py. -/
def blobName (date arxiv_id : String) : String :=
  date ++ "/" ++ arxiv_id ++ ".json"

/-- Result of `save_paper_summary`: the returned flag, the caller's dict after
the call (the source mutates `summary_data` in place), and the store state. -/
structure SaveResult where
  ok : Bool
  record : Record
  store : AzureBlobStorage
deriving Repr

/-- `AzureBlobStorage.save_paper_summary` (storage.py).  Returns `False`
without touching anything when the container client is absent; otherwise
injects `stored_date` and `arxiv_id` into `summary_data`, then uploads under
`f"{today}/{arxiv_id}.json"` with `overwrite=True`.  `uploadFails bn data`
abstracts an exception raised by serialization or upload, which is caught and
turned into a `False` return. -/
def save_paper_summary (uploadFails : String → Record → Bool) (today : String)
    (st : AzureBlobStorage) (arxiv_id : String) (summary_data : Record) : SaveResult :=
  if !st.container_ready then ⟨false, summary_data, st⟩
  else
    let blob_name := blobName today arxiv_id
    let data := dictSet (dictSet summary_data "stored_date" (PyVal.str today))
      "arxiv_id" (PyVal.str arxiv_id)
    if uploadFails blob_name data then ⟨false, data, st⟩
    else ⟨true, data, { st with blobs := dictSet st.blobs blob_name data }⟩

/-- `AzureBlobStorage.get_paper_summary` (storage.py).  `(False, None)` when
the container client is absent; otherwise reads `f"{date}/{arxiv_id}.json"`
with `date` defaulting to today; a missing blob (`ResourceNotFoundError`) gives
`(False, None)`. -/
def get_paper_summary (today : String) (st : AzureBlobStorage)
    (arxiv_id : String) (date : Option String) : Bool × Option Record :=
  if !st.container_ready then (false, Option.none)
  else
    let d := date.getD today
    match dictGet st.blobs (blobName d arxiv_id) with
    | Option.some r => (true, Option.some r)
    | Option.none => (false, Option.none)

/-- `AzureBlobStorage.list_papers_by_date` (storage.py).  `[]` when the
container client is absent; otherwise lists blob names starting with
`f"{date}/"` and maps each to `blob.name.split('/')[-1].replace('.json', '')`. -/
def list_papers_by_date (today : String) (st : AzureBlobStorage)
    (date : Option String) : List String :=
  if !st.container_ready then []
  else
    let d := date.getD today
    let pre := d ++ "/"
    ((st.blobs.map Prod.fst).filter (fun n => pre.isPrefixOf n)).map
      (fun n => ((n.splitOn "/").getLastD "").replace ".json" "")

/-! ## pdf_reader.py

`requests.get` + `raise_for_status`, the temporary-file handling, and the
PyMuPDF document are abstracted by `Except` oracles: `Except.error msg`
means the corresponding step raised an exception rendered as `msg`. -/

/-- The Python truthiness test `not text_content.strip()`: the string is empty
after stripping iff every character is whitespace. -/
def isBlank (s : String) : Bool :=
  s.data.all (fun c => c.isWhitespace)

/-- `extract_text_from_pdf` (pdf_reader.py).  `pdf` is the PyMuPDF view of the
file: either an exception message (from `fitz.open`/`load_page`/`get_text`) or
the list of per-page texts.  Page texts are concatenated in order; an
empty-after-strip result is the recognized "no extractable text" failure. -/
def extract_text_from_pdf (pdf : Except String (List String)) : Bool × Option String :=
  match pdf with
  | Except.error e => (false, Option.some ("Text extraction error: " ++ e))
  | Except.ok pages =>
      let text_content := String.join pages
      if isBlank text_content then
        (false, Option.some "PDF contains no extractable text")
      else (true, Option.some text_content)

/-- `download_and_read_pdf` (pdf_reader.py).  `download` is the
`requests.get` + `raise_for_status` step, `tmpfile` the temporary-file
write/rename block around the extraction call, `pdf` the PyMuPDF view passed
on to `extract_text_from_pdf`. -/
def download_and_read_pdf (download : Except String Unit)
    (tmpfile : Except String Unit) (pdf : Except String (List String)) :
    Bool × Option String :=
  match download with
  | Except.error e => (false, Option.some ("Download error: " ++ e))
  | Except.ok _ =>
      match tmpfile with
      | Except.error e => (false, Option.some ("PDF processing error: " ++ e))
      | Except.ok _ => extract_text_from_pdf pdf

/-! ## summariser.py — `OpenAISummarizer` -/

/-- A chat message of the request sent to the service. -/
structure ChatMessage where
  role : String
  content : String
deriving DecidableEq, Repr

/-- State of `OpenAISummarizer`: whether `self.client` is non-`None`, plus the
configured deployment name. -/
structure OpenAISummarizer where
  client_ready : Bool
  deployment_name : String
deriving Repr

/-- The `system_message` literal of `summarize_paper` (summariser.py). -/
def system_message : String :=
  "\n            You are an AI assistant specialized in summarizing academic machine learning papers.\n            Your task is to create a concise, accurate summary highlighting the key contributions,\n            methodology, and results. Structure your response in JSON format.\n            "

/-- The `user_message` f-string of `summarize_paper` (summariser.py), with the
`title`, `authors_str` and (possibly truncated) `content` interpolations. -/
def user_message (title authors_str content : String) : String :=
  "\n            Please summarize the following machine learning paper:\n            \n            Title: " ++ title
  ++ "\n            Authors: " ++ authors_str
  ++ "\n            \n            Content:\n            " ++ content
  ++ "\n            \n            Format your response as a JSON object with the following fields:\n            - \"title\": Title of the paper\n            - \"authors\": List of authors\n            - \"summary\": A concise summary of the paper (300-500 words)\n            - \"key_points\": A list of 3-5 key takeaways\n            - \"methodology\": Brief description of the methods used\n            - \"results\": Summary of main results\n            - \"implications\": Potential implications or applications\n            \n            Make sure your response is valid JSON.\n            "

/-- Result of `summarize_paper`: the returned `(success, data)` pair together
with the list of chat-completion requests issued during the call (each request
is its message list), recorded so that "no request is issued" is provable. -/
structure SummarizeOutcome where
  ok : Bool
  data : Record
  requests : List (List ChatMessage)
deriving Repr

/-- `OpenAISummarizer.summarize_paper` (summariser.py).  `respond msgs` is the
chat-completion service: an exception message or the response body text;
`parseJson` is `json.loads` on that body.  Content longer than
`max_content_length` is truncated to that many characters plus `"..."`;
`authors` are joined with `", "`.  Exceptions from the request or from JSON
parsing are caught and rendered as `(False, {error, title})`. -/
def summarize_paper (respond : List ChatMessage → Except String String)
    (parseJson : String → Except String Record) (s : OpenAISummarizer)
    (title : String) (authors : List String) (content : String)
    (max_content_length : Nat) : SummarizeOutcome :=
  if !s.client_ready then
    ⟨false, [("error", PyVal.str "Azure OpenAI client not initialized")], []⟩
  else
    let c := if content.length > max_content_length then
        content.take max_content_length ++ "..."
      else content
    let authors_str := String.intercalate ", " authors
    let msgs : List ChatMessage :=
      [⟨"system", system_message⟩, ⟨"user", user_message title authors_str c⟩]
    match respond msgs with
    | Except.error e =>
        ⟨false, [("error", PyVal.str e), ("title", PyVal.str title)], [msgs]⟩
    | Except.ok response_text =>
        match parseJson response_text with
        | Except.error e =>
            ⟨false, [("error", PyVal.str e), ("title", PyVal.str title)], [msgs]⟩
        | Except.ok summary_data =>
            let d := dictSet (dictSet summary_data "summarized_by"
              (PyVal.str "Azure OpenAI")) "model" (PyVal.str s.deployment_name)
            ⟨true, d, [msgs]⟩

/-! ## scraper.py

The parsed HTML is abstracted structurally: the page is the list of `dl`
elements `soup.select("dl")` finds, each holding its `dt` and `dd` children.
A `dt`/`dd` pair carries the pieces of markup the parser reads; an exception
raised inside the per-entry `try` block is abstracted by the `raises` flag. -/

/-- The `Paper` dataclass (scraper.py); dates are modelled as strings. -/
structure Paper where
  arxiv_id : String
  title : String
  authors : List String
  abstract : String
  pdf_url : String
  published_date : String
  updated_date : Option String
  categories : List String
deriving DecidableEq, Repr

/-- A `dt` (metadata) element: the `href` of its `a[href^='/pdf/']` child, if
such a child exists, plus the abstract per-entry exception flag. -/
structure DtEntry where
  pdf_href : Option String
  raises : Bool
deriving DecidableEq, Repr

/-- A `dd` (content) element: the texts of its optional `.list-title`,
`.list-authors`, `.mathjax` and `.list-subjects` children. -/
structure DdEntry where
  list_title : Option String
  list_authors : Option String
  mathjax_abstract : Option String
  list_subjects : Option String
deriving DecidableEq, Repr

/-- The body of the per-entry loop of `scrape_arxiv_recent_papers`
(scraper.py): `Option.none` means the entry is skipped (`continue`), either
because the per-entry code raised, or no PDF link was found, or the extracted
arXiv ID is empty after stripping. -/
def parseEntry (current_date : String) (dt : DtEntry) (dd : DdEntry) : Option Paper :=
  if dt.raises then Option.none
  else
    match dt.pdf_href with
    | Option.none => Option.none
    | Option.some pdf_href =>
        let arxiv_id := (pdf_href.replace "/pdf/" "").trim
        if arxiv_id = "" then Option.none
        else
          let title := match dd.list_title with
            | Option.some t => (t.replace "Title:" "").trim
            | Option.none => "Unknown Title"
          let authors := match dd.list_authors with
            | Option.some a =>
                (((a.replace "Authors:" "").trim).splitOn ",").map String.trim
            | Option.none => []
          let abstract := match dd.mathjax_abstract with
            | Option.some x => x.trim
            | Option.none => ""
          let categories := match dd.list_subjects with
            | Option.some c =>
                (((c.replace "Subjects:" "").trim).splitOn ";").map String.trim
            | Option.none => ["cs.LG"]
          Option.some
            { arxiv_id := arxiv_id
              title := title
              authors := authors
              abstract := abstract
              pdf_url := "https://arxiv.org" ++ pdf_href
              published_date := current_date
              updated_date := Option.none
              categories := categories }

/-- The `for i, (dt, dd) in enumerate(zip(dt_elements, dd_elements))` loop of
`scrape_arxiv_recent_papers`, appending each successfully parsed paper. -/
def scrapeEntries (current_date : String) : List (DtEntry × DdEntry) → List Paper
  | [] => []
  | (dt, dd) :: rest =>
      match parseEntry current_date dt dd with
      | Option.some p => p :: scrapeEntries current_date rest
      | Option.none => scrapeEntries current_date rest

/-- One `dl` element with its `dt` and `dd` children, in document order. -/
structure DlElement where
  dts : List DtEntry
  dds : List DdEntry
deriving DecidableEq, Repr

/-- `scrape_arxiv_recent_papers` (scraper.py) after the page fetch:
`dls` is `soup.select("dl")`.  With no `dl` element the function warns and
returns the empty list; otherwise only `dl_elements[0]` is parsed, pairing its
`dt` and `dd` children by `zip`. -/
def scrape_arxiv_recent_papers (current_date : String) (dls : List DlElement) :
    List Paper :=
  match dls with
  | [] => []
  | dl :: _ => scrapeEntries current_date (dl.dts.zip dl.dds)

/-! ## main.py — `process_papers`

The per-item effects (whether the PDF was fetched, the summarizer invoked and
the store written) are recorded explicitly so that "skips before fetching,
summarizing, or storing" is provable. -/

/-- The ambient effectful collaborators of one `process_papers` run.
`fetch` is `download_and_read_pdf` keyed by the PDF URL; its source signature
returns `Optional[str]` but every return path supplies a string, so the text
component is a plain `String`.  `listing` is the value
`scrape_arxiv_recent_papers()` would produce for this run. -/
structure PipelineEnv where
  today : String
  fetch : String → Bool × String
  respond : List ChatMessage → Except String String
  parseJson : String → Except String Record
  uploadFails : String → Record → Bool
  listing : List Paper

/-- Which per-item effects the loop body performed for one paper. -/
structure StepEffects where
  fetched : Bool
  summarized : Bool
  saved : Bool
deriving DecidableEq, Repr

/-- The body of the `for i, paper in enumerate(papers)` loop of
`process_papers` (main.py): skip check via `get_paper_summary`, then
fetch/extract, then summarize (default `max_content_length = 8000`), then
save; each failure moves to the next record.  Returns the store state, the
entry appended to `successful_summaries` (if any; note the source appends the
`summary_data` dict that `save_paper_summary` mutated), and the effects. -/
def processPaper (env : PipelineEnv) (summ : OpenAISummarizer)
    (st : AzureBlobStorage) (p : Paper) :
    AzureBlobStorage × Option Record × StepEffects :=
  let has_paper := (get_paper_summary env.today st p.arxiv_id Option.none).1
  if has_paper then (st, Option.none, ⟨false, false, false⟩)
  else
    let fr := env.fetch p.pdf_url
    if !fr.1 then (st, Option.none, ⟨true, false, false⟩)
    else
      let out := summarize_paper env.respond env.parseJson summ
        p.title p.authors fr.2 8000
      if !out.ok then (st, Option.none, ⟨true, true, false⟩)
      else
        let sr := save_paper_summary env.uploadFails env.today st p.arxiv_id out.data
        if sr.ok then (sr.store, Option.some sr.record, ⟨true, true, true⟩)
        else (sr.store, Option.none, ⟨true, true, true⟩)

/-- The whole per-item loop of `process_papers`, threading the store and
collecting `successful_summaries` in listing order. -/
def runLoop (env : PipelineEnv) (summ : OpenAISummarizer) :
    AzureBlobStorage → List Paper → AzureBlobStorage × List Record
  | st, [] => (st, [])
  | st, p :: ps =>
      let r := processPaper env summ st p
      let rest := runLoop env summ r.1 ps
      (rest.1, r.2.1.toList ++ rest.2)

/-- `process_papers` (main.py).  Checks `summarizer.client`, then
`storage.container_client`; if either is missing, returns `[]` at once.
Otherwise calls the scraper once and runs the loop.  The result is the
returned list, the final store state, and whether the scraper was called. -/
def process_papers (env : PipelineEnv) (summ : OpenAISummarizer)
    (st : AzureBlobStorage) : List Record × AzureBlobStorage × Bool :=
  if !summ.client_ready then ([], st, false)
  else if !st.container_ready then ([], st, false)
  else
    let r := runLoop env summ st env.listing
    (r.2, r.1, true)

/-! ## Claim theorems -/

/-- A string starts with the given marker; stated on the character lists so
that concrete instances evaluate. -/
def strStartsWith (marker s : String) : Bool :=
  List.isPrefixOf marker.data s.data

/-- C8: with the backing connection not established (`container_client` is
`None`), every store operation is a no-op failure for every argument:
`save_paper_summary` returns `False` (and changes nothing),
`get_paper_summary` returns `(False, None)`, and `list_papers_by_date`
returns the empty list. -/
theorem store_disabled_noop (uploadFails : String → Record → Bool)
    (today arxiv_id : String) (r : Record) (date : Option String)
    (st : AzureBlobStorage) (h : st.container_ready = false) :
    save_paper_summary uploadFails today st arxiv_id r = ⟨false, r, st⟩ ∧
    get_paper_summary today st arxiv_id date = (false, Option.none) ∧
    list_papers_by_date today st date = [] := by
  refine ⟨?_, ?_, ?_⟩ <;>
    simp [save_paper_summary, get_paper_summary, list_papers_by_date, h]

theorem store_disabled_noop_witness :
    (AzureBlobStorage.mk false [(blobName "2025-01-01" "1234.00001", [])]).container_ready
        = false ∧
    (save_paper_summary (fun _ _ => false) "2025-01-01"
        (AzureBlobStorage.mk false [(blobName "2025-01-01" "1234.00001", [])])
        "1234.00001" [("title", PyVal.str "T")] =
      ⟨false, [("title", PyVal.str "T")],
        AzureBlobStorage.mk false [(blobName "2025-01-01" "1234.00001", [])]⟩ ∧
     get_paper_summary "2025-01-01"
        (AzureBlobStorage.mk false [(blobName "2025-01-01" "1234.00001", [])])
        "1234.00001" Option.none = (false, Option.none) ∧
     list_papers_by_date "2025-01-01"
        (AzureBlobStorage.mk false [(blobName "2025-01-01" "1234.00001", [])])
        Option.none = []) :=
  ⟨rfl, store_disabled_noop _ _ _ _ _ _ rfl⟩

/-- C10: when the store is ready but the upload raises, `save_paper_summary`
returns `False` while the caller's dict has nevertheless already been mutated:
it now carries the injected `stored_date` and `arxiv_id` fields.  The store
itself is unchanged. -/
theorem save_mutates_record_on_failed_upload (uploadFails : String → Record → Bool)
    (today arxiv_id : String) (r : Record) (st : AzureBlobStorage)
    (hready : st.container_ready = true)
    (hfail : uploadFails (blobName today arxiv_id)
      (dictSet (dictSet r "stored_date" (PyVal.str today)) "arxiv_id"
        (PyVal.str arxiv_id)) = true) :
    save_paper_summary uploadFails today st arxiv_id r =
      ⟨false,
        dictSet (dictSet r "stored_date" (PyVal.str today)) "arxiv_id"
          (PyVal.str arxiv_id), st⟩ ∧
    dictGet (save_paper_summary uploadFails today st arxiv_id r).record "arxiv_id"
      = Option.some (PyVal.str arxiv_id) ∧
    dictGet (save_paper_summary uploadFails today st arxiv_id r).record "stored_date"
      = Option.some (PyVal.str today) := by
  have hsave : save_paper_summary uploadFails today st arxiv_id r =
      ⟨false,
        dictSet (dictSet r "stored_date" (PyVal.str today)) "arxiv_id"
          (PyVal.str arxiv_id), st⟩ := by
    simp [save_paper_summary, hready, hfail]
  refine ⟨hsave, ?_, ?_⟩ <;> rw [hsave]
  · exact dictGet_dictSet_self _ _ _
  · rw [dictGet_dictSet_ne _ _ _ _ (by decide)]
    exact dictGet_dictSet_self _ _ _

theorem save_mutates_record_on_failed_upload_witness :
    (AzureBlobStorage.mk true []).container_ready = true ∧
    (fun _ _ => true : String → Record → Bool) (blobName "2025-01-01" "1234.00001")
      (dictSet (dictSet [("title", PyVal.str "T")] "stored_date"
        (PyVal.str "2025-01-01")) "arxiv_id" (PyVal.str "1234.00001")) = true ∧
    save_paper_summary (fun _ _ => true) "2025-01-01" (AzureBlobStorage.mk true [])
        "1234.00001" [("title", PyVal.str "T")] =
      ⟨false,
        dictSet (dictSet [("title", PyVal.str "T")] "stored_date"
          (PyVal.str "2025-01-01")) "arxiv_id" (PyVal.str "1234.00001"),
        AzureBlobStorage.mk true []⟩ :=
  ⟨rfl, rfl,
    (save_mutates_record_on_failed_upload (fun _ _ => true) "2025-01-01" "1234.00001"
      [("title", PyVal.str "T")] (AzureBlobStorage.mk true []) rfl rfl).1⟩

/-- C2: with the store ready, a successful `save_paper_summary` followed by
`get_paper_summary` for the same `(date, identifier)` — whether the date is
passed explicitly or defaulted — returns `(True, record)` where the record is
the supplied one with `stored_date` and `arxiv_id` injected: every
originally-supplied field other than those two names is still present with its
value, and the injected fields hold today's date and the identifier.  The
record sits in the container under the blob name `f"{date}/{arxiv_id}.json"`,
which `save` wrote with overwrite semantics (the binding replaced whatever was
there before). -/
theorem save_get_round_trip (uploadFails : String → Record → Bool)
    (today arxiv_id : String) (r : Record) (st : AzureBlobStorage)
    (hready : st.container_ready = true)
    (hok : (save_paper_summary uploadFails today st arxiv_id r).ok = true) :
    get_paper_summary today (save_paper_summary uploadFails today st arxiv_id r).store
        arxiv_id (Option.some today) =
      (true, Option.some (save_paper_summary uploadFails today st arxiv_id r).record) ∧
    get_paper_summary today (save_paper_summary uploadFails today st arxiv_id r).store
        arxiv_id Option.none =
      (true, Option.some (save_paper_summary uploadFails today st arxiv_id r).record) ∧
    (save_paper_summary uploadFails today st arxiv_id r).record =
      dictSet (dictSet r "stored_date" (PyVal.str today)) "arxiv_id"
        (PyVal.str arxiv_id) ∧
    dictGet (save_paper_summary uploadFails today st arxiv_id r).store.blobs
        (blobName today arxiv_id) =
      Option.some (save_paper_summary uploadFails today st arxiv_id r).record ∧
    (∀ k v, k ≠ "stored_date" → k ≠ "arxiv_id" → dictGet r k = Option.some v →
      dictGet (save_paper_summary uploadFails today st arxiv_id r).record k =
        Option.some v) ∧
    dictGet (save_paper_summary uploadFails today st arxiv_id r).record "stored_date" =
      Option.some (PyVal.str today) ∧
    dictGet (save_paper_summary uploadFails today st arxiv_id r).record "arxiv_id" =
      Option.some (PyVal.str arxiv_id) := by
  by_cases hup : uploadFails (blobName today arxiv_id)
      (dictSet (dictSet r "stored_date" (PyVal.str today)) "arxiv_id"
        (PyVal.str arxiv_id)) = true
  · exfalso
    simp [save_paper_summary, hready, hup] at hok
  · rw [Bool.not_eq_true] at hup
    have hsave : save_paper_summary uploadFails today st arxiv_id r =
        ⟨true,
          dictSet (dictSet r "stored_date" (PyVal.str today)) "arxiv_id"
            (PyVal.str arxiv_id),
          { st with
              blobs := dictSet st.blobs (blobName today arxiv_id)
                (dictSet (dictSet r "stored_date" (PyVal.str today)) "arxiv_id"
                  (PyVal.str arxiv_id)) }⟩ := by
      simp [save_paper_summary, hready, hup]
    rw [hsave]
    refine ⟨?_, ?_, rfl, ?_, ?_, ?_, ?_⟩
    · simp [get_paper_summary, hready, dictGet_dictSet_self]
    · simp [get_paper_summary, hready, dictGet_dictSet_self]
    · exact dictGet_dictSet_self _ _ _
    · intro k v hk1 hk2 hget
      rw [dictGet_dictSet_ne _ _ _ _ hk2, dictGet_dictSet_ne _ _ _ _ hk1]
      exact hget
    · rw [dictGet_dictSet_ne _ _ _ _ (by decide)]
      exact dictGet_dictSet_self _ _ _
    · exact dictGet_dictSet_self _ _ _

theorem save_get_round_trip_witness :
    (AzureBlobStorage.mk true []).container_ready = true ∧
    (save_paper_summary (fun _ _ => false) "2025-01-01" (AzureBlobStorage.mk true [])
      "1234.00001" [("title", PyVal.str "T")]).ok = true ∧
    get_paper_summary "2025-01-01"
        (save_paper_summary (fun _ _ => false) "2025-01-01"
          (AzureBlobStorage.mk true []) "1234.00001" [("title", PyVal.str "T")]).store
        "1234.00001" (Option.some "2025-01-01") =
      (true, Option.some (save_paper_summary (fun _ _ => false) "2025-01-01"
        (AzureBlobStorage.mk true []) "1234.00001"
        [("title", PyVal.str "T")]).record) :=
  ⟨rfl, rfl,
    (save_get_round_trip (fun _ _ => false) "2025-01-01" "1234.00001"
      [("title", PyVal.str "T")] (AzureBlobStorage.mk true []) rfl rfl).1⟩

/-- C6: if the Summarizer's client or the Store's container client is not
ready at the start of the run, `process_papers` returns the empty list at
once: the scraper is never called and the store is untouched (no item is
processed). -/
theorem process_papers_fatal_init (env : PipelineEnv) (summ : OpenAISummarizer)
    (st : AzureBlobStorage)
    (h : summ.client_ready = false ∨ st.container_ready = false) :
    process_papers env summ st = ([], st, false) := by
  rcases h with h | h
  · simp [process_papers, h]
  · by_cases h2 : summ.client_ready = true <;> simp [process_papers, h, h2]

theorem process_papers_fatal_init_witness :
    ((OpenAISummarizer.mk false "gpt-4o").client_ready = false ∨
      (AzureBlobStorage.mk true []).container_ready = false) ∧
    process_papers
        ⟨"2025-01-01", fun _ => (false, ""), fun _ => Except.error "",
          fun _ => Except.error "", fun _ _ => false, []⟩
        (OpenAISummarizer.mk false "gpt-4o") (AzureBlobStorage.mk true []) =
      ([], AzureBlobStorage.mk true [], false) :=
  ⟨Or.inl rfl,
    process_papers_fatal_init _ (OpenAISummarizer.mk false "gpt-4o")
      (AzureBlobStorage.mk true []) (Or.inl rfl)⟩

/-- C7 (amended): when the language-model client is not configured,
`summarize_paper` returns `(False, {"error": "Azure OpenAI client not
initialized"})` immediately, and no chat-completion request is issued. -/
theorem summarize_paper_no_client (respond : List ChatMessage → Except String String)
    (parseJson : String → Except String Record) (s : OpenAISummarizer)
    (title : String) (authors : List String) (content : String)
    (max_content_length : Nat) (h : s.client_ready = false) :
    summarize_paper respond parseJson s title authors content max_content_length =
      ⟨false, [("error", PyVal.str "Azure OpenAI client not initialized")], []⟩ := by
  simp [summarize_paper, h]

theorem summarize_paper_no_client_witness :
    (OpenAISummarizer.mk false "gpt-4o").client_ready = false ∧
    summarize_paper (fun _ => Except.error "") (fun _ => Except.error "")
        (OpenAISummarizer.mk false "gpt-4o") "T" [] "C" 8000 =
      ⟨false, [("error", PyVal.str "Azure OpenAI client not initialized")], []⟩ :=
  ⟨rfl, summarize_paper_no_client _ _ _ "T" [] "C" 8000 rfl⟩

/-- C7 counterexample: the error payload produced by an unconfigured client is
`{"error": "Azure OpenAI client not initialized"}`, not the claimed
`{"error": "client not initialized"}`. -/
theorem summarize_paper_no_client_message_counterexample :
    (summarize_paper (fun _ => Except.error "") (fun _ => Except.error "")
        (OpenAISummarizer.mk false "gpt-4o") "T" [] "C" 8000).data =
      [("error", PyVal.str "Azure OpenAI client not initialized")] ∧
    (summarize_paper (fun _ => Except.error "") (fun _ => Except.error "")
        (OpenAISummarizer.mk false "gpt-4o") "T" [] "C" 8000).data ≠
      [("error", PyVal.str "client not initialized")] := by
  exact ⟨rfl, by decide⟩

/-- C4 (amended): `download_and_read_pdf` returns `(False, "Download error: …")`
on a network/HTTP failure; `(False, "PDF processing error: …")` when the
temporary-file handling around extraction raises; `(False, "Text extraction
error: …")` when the extraction step itself raises; `(False, "PDF contains no
extractable text")` when the concatenated page text is empty or
whitespace-only after stripping; and `(True, text)` otherwise. -/
theorem download_and_read_pdf_results (t : Except String Unit)
    (pdf : Except String (List String)) :
    (∀ e, download_and_read_pdf (Except.error e) t pdf =
      (false, Option.some ("Download error: " ++ e))) ∧
    (∀ e, download_and_read_pdf (Except.ok ()) (Except.error e) pdf =
      (false, Option.some ("PDF processing error: " ++ e))) ∧
    (∀ e, download_and_read_pdf (Except.ok ()) (Except.ok ()) (Except.error e) =
      (false, Option.some ("Text extraction error: " ++ e))) ∧
    (∀ pages, isBlank (String.join pages) = true →
      download_and_read_pdf (Except.ok ()) (Except.ok ()) (Except.ok pages) =
        (false, Option.some "PDF contains no extractable text")) ∧
    (∀ pages, isBlank (String.join pages) = false →
      download_and_read_pdf (Except.ok ()) (Except.ok ()) (Except.ok pages) =
        (true, Option.some (String.join pages))) := by
  refine ⟨fun e => rfl, fun e => rfl, fun e => rfl, fun pages h => ?_, fun pages h => ?_⟩
  all_goals simp [download_and_read_pdf, extract_text_from_pdf, h]

theorem download_and_read_pdf_results_witness :
    isBlank (String.join ["a"]) = false ∧
    download_and_read_pdf (Except.ok ()) (Except.ok ()) (Except.ok ["a"]) =
      (true, Option.some (String.join ["a"])) :=
  ⟨by decide,
    (download_and_read_pdf_results (Except.ok ()) (Except.ok ["a"])).2.2.2.2
      ["a"] (by decide)⟩

/-- C4 counterexample: when the extraction step raises (here with message
"bad xref"), the returned error string is prefixed "Text extraction error: ",
not "PDF processing error: " as the claim states. -/
theorem download_and_read_pdf_prefix_counterexample :
    download_and_read_pdf (Except.ok ()) (Except.ok ()) (Except.error "bad xref") =
      (false, Option.some "Text extraction error: bad xref") ∧
    strStartsWith "PDF processing error: " "Text extraction error: bad xref" = false :=
  ⟨rfl, by decide⟩

/-- With the client configured, `summarize_paper` issues exactly one
chat-completion request, whose messages are the fixed system instruction and
the user message embedding title, the comma-joined authors, and the (possibly
truncated) content. -/
theorem summarize_paper_requests (respond : List ChatMessage → Except String String)
    (parseJson : String → Except String Record) (s : OpenAISummarizer)
    (title : String) (authors : List String) (content : String)
    (max_content_length : Nat) (h : s.client_ready = true) :
    (summarize_paper respond parseJson s title authors content max_content_length).requests =
      [[⟨"system", system_message⟩,
        ⟨"user", user_message title (String.intercalate ", " authors)
          (if content.length > max_content_length then
            content.take max_content_length ++ "..."
          else content)⟩]] := by
  simp only [summarize_paper, h, Bool.not_true, Bool.false_eq_true, if_false]
  cases respond [⟨"system", system_message⟩,
      ⟨"user", user_message title (String.intercalate ", " authors)
        (if content.length > max_content_length then
          content.take max_content_length ++ "..."
        else content)⟩] with
  | error e => rfl
  | ok txt => cases hp : parseJson txt <;> simp [hp]

/-- C3: with the client configured, if the content is strictly longer than
`max_content_length` then the text embedded in the issued summarization
request is exactly the `max_content_length`-character prefix of the content
followed by the truncation marker `"..."`; if the content is at or under the
maximum it is embedded unmodified. -/
theorem truncation_policy (respond : List ChatMessage → Except String String)
    (parseJson : String → Except String Record) (s : OpenAISummarizer)
    (title : String) (authors : List String) (content : String)
    (max_content_length : Nat) (h : s.client_ready = true) :
    (content.length > max_content_length →
      (summarize_paper respond parseJson s title authors content
          max_content_length).requests =
        [[⟨"system", system_message⟩,
          ⟨"user", user_message title (String.intercalate ", " authors)
            (content.take max_content_length ++ "...")⟩]]) ∧
    (content.length ≤ max_content_length →
      (summarize_paper respond parseJson s title authors content
          max_content_length).requests =
        [[⟨"system", system_message⟩,
          ⟨"user", user_message title (String.intercalate ", " authors)
            content⟩]]) := by
  rw [summarize_paper_requests respond parseJson s title authors content
    max_content_length h]
  constructor
  · intro hl
    rw [if_pos hl]
  · intro hl
    rw [if_neg (by omega)]

theorem truncation_policy_witness :
    (OpenAISummarizer.mk true "gpt-4o").client_ready = true ∧
    "abcd".length > 2 ∧
    (summarize_paper (fun _ => Except.error "") (fun _ => Except.error "")
        (OpenAISummarizer.mk true "gpt-4o") "T" ["A"] "abcd" 2).requests =
      [[⟨"system", system_message⟩,
        ⟨"user", user_message "T" (String.intercalate ", " ["A"])
          ("abcd".take 2 ++ "...")⟩]] :=
  ⟨rfl, by decide,
    (truncation_policy (fun _ => Except.error "") (fun _ => Except.error "")
      (OpenAISummarizer.mk true "gpt-4o") "T" ["A"] "abcd" 2 rfl).1 (by decide)⟩

/-- The per-entry loop of the scraper is the `filterMap` of the entry parser
over the zipped `dt`/`dd` pairs. -/
theorem scrapeEntries_eq_filterMap (current_date : String)
    (l : List (DtEntry × DdEntry)) :
    scrapeEntries current_date l =
      l.filterMap (fun e => parseEntry current_date e.1 e.2) := by
  induction l with
  | nil => rfl
  | cons e rest ih =>
      obtain ⟨dt, dd⟩ := e
      simp only [scrapeEntries]
      cases hp : parseEntry current_date dt dd <;>
        simp [List.filterMap_cons, hp, ih]

/-- A `filterMap` keeps exactly the entries the function does not send to
`none`. -/
theorem length_filterMap_sub {α β : Type} (f : α → Option β) (l : List α) :
    (l.filterMap f).length = l.length - l.countP (fun a => (f a).isNone) := by
  induction l with
  | nil => rfl
  | cons a t ih =>
      have hle : t.countP (fun a => (f a).isNone) ≤ t.length :=
        List.countP_le_length _
      cases hf : f a
      · simp [List.filterMap_cons, hf, List.countP_cons, ih]
      · simp [List.filterMap_cons, hf, List.countP_cons, ih]
        omega

/-- C5: for every listing page, the papers returned from the first `dl`
element are the in-order `filterMap` of the per-entry parser over the zipped
`dt`/`dd` pairs; hence their number is the number of zipped pairs (the shorter
of the two counts — a count mismatch does not abort) minus the entries whose
parse raises, has no PDF link, or yields an empty identifier. -/
theorem lister_count_and_drop (current_date : String) (dts : List DtEntry)
    (dds : List DdEntry) (rest : List DlElement) :
    scrape_arxiv_recent_papers current_date (⟨dts, dds⟩ :: rest) =
      (dts.zip dds).filterMap (fun e => parseEntry current_date e.1 e.2) ∧
    (scrape_arxiv_recent_papers current_date (⟨dts, dds⟩ :: rest)).length =
      (dts.zip dds).length -
        (dts.zip dds).countP (fun e => (parseEntry current_date e.1 e.2).isNone) ∧
    (dts.zip dds).length = min dts.length dds.length := by
  refine ⟨scrapeEntries_eq_filterMap _ _, ?_, by simp [List.length_zip]⟩
  show (scrapeEntries current_date (dts.zip dds)).length = _
  rw [scrapeEntries_eq_filterMap, length_filterMap_sub]

/-- C9: the scraper parses entries only from the first `dl` element found on
the page — the result for `dl :: rest` is the result for `[dl]`, whatever
`rest` holds — and a page with no `dl` element yields `[]` rather than an
error. -/
theorem scraper_first_dl_only (current_date : String) (dl : DlElement)
    (rest : List DlElement) :
    scrape_arxiv_recent_papers current_date (dl :: rest) =
      scrape_arxiv_recent_papers current_date [dl] ∧
    scrape_arxiv_recent_papers current_date [] = [] :=
  ⟨rfl, rfl⟩

/-! ## Idempotence of the per-item loop (claim C1) -/

/-- The blob name the loop body consults and writes for a paper. -/
def paperBlob (env : PipelineEnv) (p : Paper) : String :=
  blobName env.today p.arxiv_id

/-- The summarization outcome the loop body obtains for a paper; it depends
only on the environment, the summarizer and the paper, never on the store. -/
def paperSumm (env : PipelineEnv) (summ : OpenAISummarizer) (p : Paper) :
    SummarizeOutcome :=
  summarize_paper env.respond env.parseJson summ p.title p.authors
    (env.fetch p.pdf_url).2 8000

/-- The record the loop body would upload for a paper (summary data with the
injected `stored_date` and `arxiv_id`); store-independent as well. -/
def paperData (env : PipelineEnv) (summ : OpenAISummarizer) (p : Paper) : Record :=
  dictSet (dictSet (paperSumm env summ p).data "stored_date" (PyVal.str env.today))
    "arxiv_id" (PyVal.str p.arxiv_id)

/-- Store effect of one loop iteration: the store is unchanged unless the skip
check misses, the fetch, the summarization and the upload all succeed, and the
store is ready — in which case exactly one blob binding is written. -/
theorem processPaper_fst (env : PipelineEnv) (summ : OpenAISummarizer)
    (st : AzureBlobStorage) (p : Paper) :
    (processPaper env summ st p).1 =
      if st.container_ready && (dictGet st.blobs (paperBlob env p)).isSome then st
      else if !(env.fetch p.pdf_url).1 then st
      else if !(paperSumm env summ p).ok then st
      else if !st.container_ready then st
      else if env.uploadFails (paperBlob env p) (paperData env summ p) then st
      else { st with
        blobs := dictSet st.blobs (paperBlob env p) (paperData env summ p) } := by
  by_cases hcr : st.container_ready = true
  · rcases hd : dictGet st.blobs (blobName env.today p.arxiv_id) with _ | r
    · by_cases hf : (env.fetch p.pdf_url).1 = true
      · by_cases ho : (summarize_paper env.respond env.parseJson summ p.title
            p.authors (env.fetch p.pdf_url).2 8000).ok = true
        · by_cases hu : env.uploadFails (blobName env.today p.arxiv_id)
              (dictSet (dictSet (summarize_paper env.respond env.parseJson summ
                p.title p.authors (env.fetch p.pdf_url).2 8000).data "stored_date"
                (PyVal.str env.today)) "arxiv_id" (PyVal.str p.arxiv_id)) = true
          · simp [processPaper, get_paper_summary, save_paper_summary, paperBlob,
              paperSumm, paperData, hcr, hd, hf, ho, hu]
          · rw [Bool.not_eq_true] at hu
            simp [processPaper, get_paper_summary, save_paper_summary, paperBlob,
              paperSumm, paperData, hcr, hd, hf, ho, hu]
        · rw [Bool.not_eq_true] at ho
          simp [processPaper, get_paper_summary, save_paper_summary, paperBlob,
            paperSumm, paperData, hcr, hd, hf, ho]
      · rw [Bool.not_eq_true] at hf
        simp [processPaper, get_paper_summary, paperBlob, paperSumm, hcr, hd, hf]
    · simp [processPaper, get_paper_summary, paperBlob, hcr, hd]
  · rw [Bool.not_eq_true] at hcr
    by_cases hf : (env.fetch p.pdf_url).1 = true
    · by_cases ho : (summarize_paper env.respond env.parseJson summ p.title
          p.authors (env.fetch p.pdf_url).2 8000).ok = true
      · simp [processPaper, get_paper_summary, save_paper_summary, paperBlob,
          paperSumm, hcr, hf, ho]
      · rw [Bool.not_eq_true] at ho
        simp [processPaper, get_paper_summary, paperBlob, paperSumm, hcr, hf, ho]
    · rw [Bool.not_eq_true] at hf
      simp [processPaper, get_paper_summary, paperBlob, hcr, hf]

/-- One loop iteration never changes the readiness flag of the store. -/
theorem processPaper_ready (env : PipelineEnv) (summ : OpenAISummarizer)
    (st : AzureBlobStorage) (p : Paper) :
    (processPaper env summ st p).1.container_ready = st.container_ready := by
  rw [processPaper_fst]
  repeat' split
  all_goals rfl

/-- One loop iteration never removes a blob: any key present before the
iteration is still present after it. -/
theorem processPaper_mono (env : PipelineEnv) (summ : OpenAISummarizer)
    (st : AzureBlobStorage) (p : Paper) (k : String)
    (h : (dictGet st.blobs k).isSome = true) :
    (dictGet (processPaper env summ st p).1.blobs k).isSome = true := by
  rw [processPaper_fst]
  repeat' split
  all_goals first
    | exact h
    | exact dictGet_isSome_dictSet _ _ _ _ h

/-- Unfolding the loop one step, on the store component. -/
theorem runLoop_fst_cons (env : PipelineEnv) (summ : OpenAISummarizer)
    (st : AzureBlobStorage) (p : Paper) (ps : List Paper) :
    (runLoop env summ st (p :: ps)).1 =
      (runLoop env summ (processPaper env summ st p).1 ps).1 := rfl

/-- The loop never changes the readiness flag of the store. -/
theorem runLoop_ready (env : PipelineEnv) (summ : OpenAISummarizer)
    (ps : List Paper) : ∀ st : AzureBlobStorage,
    (runLoop env summ st ps).1.container_ready = st.container_ready := by
  induction ps with
  | nil => intro st; rfl
  | cons p ps ih =>
      intro st
      rw [runLoop_fst_cons, ih, processPaper_ready]

/-- The loop never removes a blob. -/
theorem runLoop_mono (env : PipelineEnv) (summ : OpenAISummarizer)
    (ps : List Paper) : ∀ (st : AzureBlobStorage) (k : String),
    (dictGet st.blobs k).isSome = true →
    (dictGet (runLoop env summ st ps).1.blobs k).isSome = true := by
  induction ps with
  | nil => intro st k h; exact h
  | cons p ps ih =>
      intro st k h
      rw [runLoop_fst_cons]
      exact ih _ k (processPaper_mono env summ st p k h)

/-- An unready store is never changed by a loop iteration. -/
theorem processPaper_store_unready (env : PipelineEnv) (summ : OpenAISummarizer)
    (st : AzureBlobStorage) (p : Paper) (h : st.container_ready = false) :
    (processPaper env summ st p).1 = st := by
  rw [processPaper_fst]
  by_cases hf : (env.fetch p.pdf_url).1 = true
  · by_cases ho : (paperSumm env summ p).ok = true
    · simp [h, hf, ho]
    · rw [Bool.not_eq_true] at ho
      simp [h, hf, ho]
  · rw [Bool.not_eq_true] at hf
    simp [h, hf]

/-- After a full pass of the loop over a listing, every paper of that listing
has become a no-op for the store: a second iteration on it either hits the
skip check or fails at the same store-independent step as before. -/
theorem runLoop_step_stable (env : PipelineEnv) (summ : OpenAISummarizer) :
    ∀ (ps : List Paper) (st : AzureBlobStorage) (p : Paper), p ∈ ps →
    (processPaper env summ (runLoop env summ st ps).1 p).1 =
      (runLoop env summ st ps).1 := by
  intro ps
  induction ps with
  | nil => intro st p h; exact absurd h (List.not_mem_nil p)
  | cons q rest ih =>
      intro st p hmem
      rw [runLoop_fst_cons]
      rcases List.mem_cons.mp hmem with hpq | hrest
      · subst hpq
        by_cases hcr : (runLoop env summ (processPaper env summ st p).1
            rest).1.container_ready = true
        · by_cases hd : (dictGet (runLoop env summ (processPaper env summ st p).1
              rest).1.blobs (paperBlob env p)).isSome = true
          · rw [processPaper_fst]
            simp [hcr, hd]
          · rw [Bool.not_eq_true] at hd
            by_cases hf : (env.fetch p.pdf_url).1 = true
            · by_cases ho : (paperSumm env summ p).ok = true
              · by_cases hu : env.uploadFails (paperBlob env p)
                    (paperData env summ p) = true
                · rw [processPaper_fst]
                  simp [hcr, hd, hf, ho, hu]
                · exfalso
                  rw [Bool.not_eq_true] at hu
                  have hcr0 : st.container_ready = true := by
                    rw [runLoop_ready, processPaper_ready] at hcr
                    exact hcr
                  have hkey : (dictGet (processPaper env summ st p).1.blobs
                      (paperBlob env p)).isSome = true := by
                    by_cases hd0 : (dictGet st.blobs (paperBlob env p)).isSome = true
                    · exact processPaper_mono env summ st p _ hd0
                    · rw [Bool.not_eq_true] at hd0
                      rw [processPaper_fst]
                      simp [hcr0, hd0, hf, ho, hu, dictGet_dictSet_self]
                  have hcontr := runLoop_mono env summ rest
                    (processPaper env summ st p).1 (paperBlob env p) hkey
                  rw [hd] at hcontr
                  exact Bool.false_ne_true hcontr
              · rw [Bool.not_eq_true] at ho
                rw [processPaper_fst]
                simp [hd, hf, ho]
            · rw [Bool.not_eq_true] at hf
              rw [processPaper_fst]
              simp [hd, hf]
        · rw [Bool.not_eq_true] at hcr
          exact processPaper_store_unready env summ _ p hcr
      · exact ih (processPaper env summ st q).1 p hrest

/-- A store on which every listed paper is a no-op is a fixpoint of the loop. -/
theorem runLoop_fixpoint (env : PipelineEnv) (summ : OpenAISummarizer) :
    ∀ (ps : List Paper) (st : AzureBlobStorage),
    (∀ p, p ∈ ps → (processPaper env summ st p).1 = st) →
    (runLoop env summ st ps).1 = st := by
  intro ps
  induction ps with
  | nil => intro st _; rfl
  | cons q rest ih =>
      intro st h
      rw [runLoop_fst_cons, h q (List.mem_cons_self q rest)]
      exact ih st (fun p hp => h p (List.mem_cons_of_mem q hp))

/-- Running the loop a second time over the same listing from the stores the
first run left behind changes nothing. -/
theorem runLoop_idem (env : PipelineEnv) (summ : OpenAISummarizer)
    (st : AzureBlobStorage) (ps : List Paper) :
    (runLoop env summ (runLoop env summ st ps).1 ps).1 =
      (runLoop env summ st ps).1 :=
  runLoop_fixpoint env summ ps _
    (fun p hp => runLoop_step_stable env summ ps st p hp)

/-- Running `process_papers` a second time on the store state the first run
produced leaves the stored set unchanged. -/
theorem process_papers_store_idem (env : PipelineEnv) (summ : OpenAISummarizer)
    (st : AzureBlobStorage) :
    (process_papers env summ (process_papers env summ st).2.1).2.1 =
      (process_papers env summ st).2.1 := by
  by_cases hc : summ.client_ready = true
  · by_cases hr : st.container_ready = true
    · have h1 : (process_papers env summ st).2.1 =
          (runLoop env summ st env.listing).1 := by
        simp [process_papers, hc, hr]
      rw [h1]
      have hrf : (runLoop env summ st env.listing).1.container_ready = true := by
        rw [runLoop_ready]
        exact hr
      simp [process_papers, hc, hrf, runLoop_idem]
    · rw [Bool.not_eq_true] at hr
      simp [process_papers, hc, hr]
  · rw [Bool.not_eq_true] at hc
    simp [process_papers, hc]

/-- C1: a paper whose summary is already stored under (today, identifier) is
skipped by the loop body before any fetch, summarization or store write (the
state is returned unchanged, nothing is appended, and no per-item effect is
performed); consequently running the whole pipeline a second time on the same
day over the unchanged listing leaves the stored set exactly as the first run
left it. -/
theorem pipeline_skip_and_idempotent (env : PipelineEnv) (summ : OpenAISummarizer)
    (st stRun : AzureBlobStorage) (p : Paper)
    (hready : st.container_ready = true)
    (hstored : (dictGet st.blobs (blobName env.today p.arxiv_id)).isSome = true) :
    processPaper env summ st p =
      (st, Option.none, StepEffects.mk false false false) ∧
    (process_papers env summ (process_papers env summ stRun).2.1).2.1 =
      (process_papers env summ stRun).2.1 := by
  constructor
  · obtain ⟨r, hr⟩ := Option.isSome_iff_exists.mp hstored
    simp [processPaper, get_paper_summary, hready, hr]
  · exact process_papers_store_idem env summ stRun

theorem pipeline_skip_and_idempotent_witness :
    (AzureBlobStorage.mk true
        [(blobName "2025-01-01" "1234.00001",
          [("title", PyVal.str "T")])]).container_ready = true ∧
    (dictGet (AzureBlobStorage.mk true
        [(blobName "2025-01-01" "1234.00001", [("title", PyVal.str "T")])]).blobs
      (blobName "2025-01-01" "1234.00001")).isSome = true ∧
    processPaper
        ⟨"2025-01-01", fun _ => (false, ""), fun _ => Except.error "",
          fun _ => Except.error "", fun _ _ => false, []⟩
        (OpenAISummarizer.mk true "gpt-4o")
        (AzureBlobStorage.mk true
          [(blobName "2025-01-01" "1234.00001", [("title", PyVal.str "T")])])
        ⟨"1234.00001", "T", [], "", "https://arxiv.org/pdf/1234.00001",
          "2025-01-01", Option.none, ["cs.LG"]⟩ =
      (AzureBlobStorage.mk true
          [(blobName "2025-01-01" "1234.00001", [("title", PyVal.str "T")])],
        Option.none, StepEffects.mk false false false) :=
  ⟨rfl, by decide,
    (pipeline_skip_and_idempotent
      ⟨"2025-01-01", fun _ => (false, ""), fun _ => Except.error "",
        fun _ => Except.error "", fun _ _ => false, []⟩
      (OpenAISummarizer.mk true "gpt-4o")
      (AzureBlobStorage.mk true
        [(blobName "2025-01-01" "1234.00001", [("title", PyVal.str "T")])])
      (AzureBlobStorage.mk true [])
      ⟨"1234.00001", "T", [], "", "https://arxiv.org/pdf/1234.00001",
        "2025-01-01", Option.none, ["cs.LG"]⟩
      rfl (by decide)).1⟩
